import Mathlib

/-!
Verification development for the SWEEP structure-fire emissions estimator.

This file gives a shallow embedding, in Lean 4, of the numeric and
table-shaped core of the repository:

* `scripts/emissions.py` (`estimate_emissions`): the per-record consumption
  lookup, the per-pollutant emission formula, the emission-factor table
  resolution and the output-column projection;
* `sweep/aggregate.py` (`aggregated_report`): dimension resolution,
  priority sorting, group sums, damaged-structure counts and the
  zero-damage group filter;
* `sweep/vehicles.py` (`vehicle_calculator`): the vehicle count derivation
  and the per-pollutant vehicle emission totals;
* `sweep/estimator_main.py` (`sweep_estimator`): aggregate-field
  validation, pollutant-selector overrides and the empty-filter
  short-circuit of the pipeline.

Machine floats are modelled as exact rationals; Python's `round` (and the
pandas/numpy `.round`) is modelled as round-half-to-even on rationals.
DataFrames are modelled as a list of column names plus rows given as
association lists from column name to a value (`Val`), with `Val.na`
standing for pandas missing values (NaN).
-/

/-! ## String primitives

Python's `str.upper`, `str.startswith` and `str.endswith` are modelled by
structurally recursive functions over the character list of a `String`
(the core library versions are equivalent but are not definitionally
reducible, which the concrete evaluations below need). -/

/-- `str.upper()`. -/
def strUpper (s : String) : String := ⟨s.data.map Char.toUpper⟩

/-- Whether the first list is an initial segment of the second. -/
def charListPre : List Char → List Char → Bool
  | [], _ => true
  | _ :: _, [] => false
  | a :: as, b :: bs => a == b && charListPre as bs

/-- `s.startswith(p)`. -/
def strStartsWith (s p : String) : Bool := charListPre p.data s.data

/-- `s.endswith(p)`. -/
def strEndsWith (s p : String) : Bool := charListPre p.data.reverse s.data.reverse

/-! ## Rounding

Python's builtin `round`, and numpy/pandas rounding, use round-half-to-even
("banker's rounding"); we model it exactly on `ℚ`. -/

/-- Round-half-to-even of a rational to an integer. -/
def roundHalfEven (q : ℚ) : ℤ :=
  let f : ℤ := ⌊q⌋
  let r : ℚ := q - f
  if r < 1/2 then f
  else if 1/2 < r then f + 1
  else if f % 2 = 0 then f else f + 1

/-- `round(q, d)`: round to `d` decimal places, ties to even. -/
def roundTo (d : ℕ) (q : ℚ) : ℚ := (roundHalfEven (q * (10 : ℚ) ^ d) : ℚ) / (10 : ℚ) ^ d

/-- `round(q, 2)`, as used by `aggregated_report` and `vehicle_calculator`. -/
def round2 (q : ℚ) : ℚ := roundTo 2 q

/-- `round(q, 3)`, as used by `estimate_emissions` for the ton columns. -/
def round3 (q : ℚ) : ℚ := roundTo 3 q

/-! ## `scripts/emissions.py`: consumption lookup (lines 99-119)

`estimate_emissions` holds a dictionary from preset name to a list of five
fractions, indexed positionally by damage category, and assigns
`CONSUMPTION_FACTOR` row by row through an `if`/`elif` chain with no final
`else`: a damage value outside the five recognized labels is simply not
assigned (the cell stays missing), and no warning or flag of any kind is
emitted by the loop. -/

/-- The five recognized damage labels, in the order of the preset lists. -/
def damage_categories : List String :=
  ["No Damage", "Affected (1-9%)", "Minor (10-25%)", "Major (26-50%)", "Destroyed (>50%)"]

/-- The `'HOLDER'` entry of `structure_consumption_dictionary`. -/
def consumptionHOLDER : Fin 5 → ℚ
  | 0 => 0 | 1 => 0 | 2 => 0 | 3 => 0.8 | 4 => 0.8

/-- The `'DINS3'` entry of `structure_consumption_dictionary`. -/
def consumptionDINS3 : Fin 5 → ℚ
  | 0 => 0 | 1 => 0 | 2 => 0 | 3 => 0.50 | 4 => 0.95

/-- The `'DINS5'` entry of `structure_consumption_dictionary`. -/
def consumptionDINS5 : Fin 5 → ℚ
  | 0 => 0 | 1 => 0.05 | 2 => 0.175 | 3 => 0.38 | 4 => 0.755

/-- The `'CARB'` entry of `structure_consumption_dictionary`. -/
def consumptionCARB : Fin 5 → ℚ
  | 0 => 0 | 1 => 0.07 | 2 => 0.07 | 3 => 0.07 | 4 => 0.07

/-- `structure_consumption_dictionary` from `estimate_emissions`:
preset name to the five per-category consumption fractions. -/
def structure_consumption_dictionary : String → Option (Fin 5 → ℚ)
  | "HOLDER" => some consumptionHOLDER
  | "DINS3" => some consumptionDINS3
  | "DINS5" => some consumptionDINS5
  | "CARB" => some consumptionCARB
  | _ => none

/-- Position of a damage label in the `if`/`elif` chain of
`estimate_emissions` (lines 110-119); `none` when no branch matches. -/
def damageIdx : String → Option (Fin 5)
  | "No Damage" => some 0
  | "Affected (1-9%)" => some 1
  | "Minor (10-25%)" => some 2
  | "Major (26-50%)" => some 3
  | "Destroyed (>50%)" => some 4
  | _ => none

/-- The `CONSUMPTION_FACTOR` value assigned to a record, if any:
the preset name is uppercased (line 106) and the damage label selects the
position in the preset's list; an unmatched label assigns nothing. -/
def assignConsumption (preset damage : String) : Option ℚ :=
  (damageIdx damage).bind fun i =>
    (structure_consumption_dictionary (strUpper preset)).map fun t => t i

/-- The consumption-assignment step of `estimate_emissions`, together with
the list of warnings the loop emits about the damage label. The loop
(lines 107-119) prints nothing and records nothing for an unmatched label,
so the warning list is always empty. -/
def assignConsumptionStep (preset damage : String) : Option ℚ × List String :=
  (assignConsumption preset damage, [])

/-! ## `scripts/emissions.py`: the per-record emission formula
(lines 170-200) -/

/-- Pound-basis emissions of one record for one pollutant (line 178):
`((SQFT*FRAME_FACTOR + SQFT*CONTENTS_FACTOR)/2000) * CONSUMPTION_FACTOR * ef`. -/
def e_lbs (sqft frame contents consumption ef : ℚ) : ℚ :=
  ((sqft * frame + sqft * contents) / 2000) * consumption * ef

/-- `EF['EMISSION FACTOR'] = EF['STRUCTURE_GKG'] * 2` (line 170). -/
def emission_factor (structure_gkg : ℚ) : ℚ := structure_gkg * 2

/-- The ton value written to the `E_<pollutant>_TN` column (lines 198-200):
pounds divided by 2000 and rounded to 3 decimals. -/
def e_ton (sqft frame contents consumption structure_gkg : ℚ) : ℚ :=
  round3 (e_lbs sqft frame contents consumption (emission_factor structure_gkg) / 2000)

/-! ## `scripts/emissions.py`: emission-factor table resolution
(lines 159-173)

The requested `pollutants` argument is either a plain string or a list of
strings. The code recognizes the ALL sentinel only by the three exact
comparisons `pollutants == "ALL" or pollutants == "All" or pollutants ==
"all"`; any other plain string falls to the `isin` branch, and pandas
`Series.isin` rejects a non-list-like (string) argument with a
`TypeError`, so that path is an error. The `isin` match on the
`POLLUTANT` column is exact (case-sensitive). -/

/-- The Python value of the `pollutants` argument: a plain string or a
list of pollutant names. -/
inductive Sel where
  | str : String → Sel
  | list : List String → Sel
deriving DecidableEq, Repr

/-- The exact sentinel test of line 163:
`pollutants == "ALL" or pollutants == "All" or pollutants == "all"`. -/
def isAllSentinel : Sel → Bool
  | .str s => s == "ALL" || s == "All" || s == "all"
  | .list _ => false

/-- The argument handling of pandas `Series.isin` on the non-sentinel
branch: a list gives its members; a plain string is not list-like and
raises `TypeError`, modelled as `none`. -/
def isinMembers : Sel → Option (List String)
  | .str _ => none
  | .list l => some l

/-- One row of the emission-factor table after column names are
uppercased: the `POLLUTANT` value and the `STRUCTURE_GKG` value
(`none` models a missing factor). -/
structure EfRow where
  pollutant : String
  structure_gkg : Option ℚ
deriving DecidableEq, Repr

/-- Lines 163-170: restrict the factor table to the requested subset
(`ALL` sentinel keeps everything; otherwise the selector must be a list
and rows are kept by exact `isin` membership, a plain non-sentinel
string raising `TypeError`), drop rows with a missing `STRUCTURE_GKG`,
and attach the doubled emission factor. Returns `(POLLUTANT,
EMISSION FACTOR)` pairs, or `none` for the `isin` error path. -/
def resolveEF (table : List EfRow) (sel : Sel) : Option (List (String × ℚ)) :=
  (if isAllSentinel sel then some table
   else (isinMembers sel).map fun req =>
     table.filter fun r => req.contains r.pollutant).map
    fun sub => sub.filterMap fun r =>
      r.structure_gkg.map fun g => (r.pollutant, emission_factor g)

/-! ## `scripts/emissions.py`: output-column projection (lines 195-213)

After the per-pollutant loop, the pound-basis columns (names starting with
`E_`) are converted to `_TN` ton columns and dropped; the output keeps a
fixed identity/jurisdiction column list (those present) plus the ton
columns. -/

/-- Pandas column assignment `df[n] = ...` appends the name only when
absent. -/
def addColName (cols : List String) (n : String) : List String :=
  if n ∈ cols then cols else cols ++ [n]

/-- The fixed `out_cols` list of `estimate_emissions` (lines 205-210). -/
def out_cols : List String :=
  ["INCIDENTNAME", "INCIDENTNUM", "START_DATE", "GLOBALID_DINS", "DAMAGE",
   "STRUCTURETYPE", "STRUCTURECATEGORY", "CAT", "SQFT", "SQFT_SOURCE",
   "COUNTY", "AIR_BASIN", "AIR_DISTRICT", "COABDIS", "CONSUMPTION_FACTOR",
   "FRAME_FACTOR", "CONTENTS_FACTOR", "geometry"]

/-- The column list of the returned emissions frame, as a function of the
column list after the per-pollutant loop (lines 195-213): collect the
`E_` columns, create the `_TN` companions, drop the `E_` originals, and
project to `out_cols` (those present) followed by the ton columns. -/
def emissionsOutCols (cols : List String) : List String :=
  let eColumns := cols.filter fun c => strStartsWith c "E_"
  let withTn := eColumns.foldl (fun acc c => addColName acc (c ++ "_TN")) cols
  let dropped := withTn.filter fun c => !(eColumns.contains c)
  let tnColumns := dropped.filter fun c => strStartsWith c "E_" && strEndsWith c "_TN"
  (out_cols.filter fun c => dropped.contains c) ++ tnColumns

/-! ## A pandas DataFrame model

A cell value is a string, an exact rational (standing for a float), a date
(year, month, day, standing for a datetime), or missing (NaN). A row is an
association list from column name to value; a frame is a column-name list
plus its rows. -/

/-- A cell value of the working table. -/
inductive Val where
  | str : String → Val
  | num : ℚ → Val
  | date : ℕ → ℕ → ℕ → Val
  | na : Val
deriving DecidableEq, Repr

/-- A row: column name to value, first binding wins. -/
abbrev Row := List (String × Val)

/-- A tabular frame: column names and rows. -/
structure DataFrame where
  cols : List String
  rows : List Row
deriving DecidableEq, Repr

/-- `row[c]`: the value of column `c` in a row (first binding wins), NaN
when the column is absent. -/
def getVal : Row → String → Val
  | [], _ => Val.na
  | q :: t, c => if q.1 == c then q.2 else getVal t c

/-- `row[c] = v`: overwrite the binding in place when the column exists,
append it otherwise (pandas column-assignment semantics). -/
def setRowVal (r : Row) (c : String) (v : Val) : Row :=
  if r.any (fun q => q.1 == c) then
    r.map fun q => if q.1 == c then (c, v) else q
  else r ++ [(c, v)]

/-- The rational content of a numeric cell; NaN and non-numeric cells
count as 0, matching `skipna` summation. -/
def valNum : Val → ℚ
  | .num q => q
  | _ => 0

/-! ## `sweep/aggregate.py` (`aggregated_report`) -/

/-- `.dt.year` of a `START_DATE` cell (NaN when not a date). -/
def valYear : Val → Val
  | .date y _ _ => .num y
  | _ => .na

/-- `.dt.month` of a `START_DATE` cell (NaN when not a date). -/
def valMonth : Val → Val
  | .date _ m _ => .num m
  | _ => .na

/-- The in-place column writes of `aggregated_report` lines 55-57 on one
row: `START_DATE` is rewritten (datetime conversion; a no-op on values
already modelled as dates) and derived `MONTH` and `YEAR` columns are
added. -/
def mutateRow (r : Row) : Row :=
  let d := getVal r "START_DATE"
  setRowVal (setRowVal (setRowVal r "START_DATE" d) "MONTH" (valMonth d)) "YEAR" (valYear d)

/-- The effect of `aggregated_report` lines 55-57 on the caller's frame:
the three column assignments mutate `emissions_gdf` in place. -/
def mutateForAggregate (df : DataFrame) : DataFrame :=
  ⟨addColName (addColName (addColName df.cols "START_DATE") "MONTH") "YEAR",
   df.rows.map mutateRow⟩

/-- The `aggregate_cols` dictionary (lines 59-69): dimension name to
underlying column and sort priority. -/
def aggregate_cols : String → Option (String × ℕ)
  | "INCIDENT" => some ("INCIDENTNAME", 8)
  | "MONTH" => some ("MONTH", 7)
  | "YEAR" => some ("YEAR", 6)
  | "COABDIS" => some ("COABDIS", 5)
  | "COUNTY" => some ("COUNTY", 4)
  | "AIR DISTRICT" => some ("AIR_DISTRICT", 3)
  | "AIR DISTRICT ID" => some ("DISA_ID", 3)
  | "AIR BASIN" => some ("AIR_BASIN", 2)
  | "AOI_INDEX" => some ("AOI_INDEX", 8)
  | _ => none

/-- Lines 72-81: default to `['YEAR','INCIDENT']` when no aggregates are
given; otherwise uppercase each name and append `'YEAR'` when `'MONTH'`
is requested without it. -/
def prepAggregates (aggs : List String) : List String :=
  if aggs.isEmpty then ["YEAR", "INCIDENT"]
  else
    let a := aggs.map strUpper
    if a.contains "MONTH" && !(a.contains "YEAR") then a ++ ["YEAR"] else a

/-- Lines 84-88: map each recognized dimension through `aggregate_cols`;
unknown names are dropped (with only a printed warning). -/
def resolvedPairs (aggs : List String) : List (String × ℕ) :=
  (prepAggregates aggs).filterMap aggregate_cols

/-- The sort key relation of line 91 (`key=lambda x: x[1]`). -/
def priLe (a b : String × ℕ) : Prop := a.2 ≤ b.2

instance : DecidableRel priLe := fun a b => Nat.decLe a.2 b.2

instance : IsTotal (String × ℕ) priLe := ⟨fun a b => Nat.le_total a.2 b.2⟩

instance : IsTrans (String × ℕ) priLe := ⟨fun _ _ _ h1 h2 => Nat.le_trans h1 h2⟩

/-- Lines 90-92: the resolved grouping columns, stably sorted by priority
(Python's `sorted` is stable; so is insertion sort). -/
def resolveSorted (aggs : List String) : List String :=
  (List.insertionSort priLe (resolvedPairs aggs)).map fun x => x.1

/-- The group key of a row under the resolved grouping columns. -/
def rowKey (sc : List String) (r : Row) : List Val := sc.map (getVal r)

/-- Whether a group key contains a missing value; pandas `groupby` drops
such rows (`dropna=True`). -/
def keyHasNa (k : List Val) : Bool := k.contains Val.na

/-- The distinct group keys over the rows (na-keyed rows dropped). -/
def groupKeysOf (sc : List String) (rows : List Row) : List (List Val) :=
  ((rows.map (rowKey sc)).filter fun k => !keyHasNa k).dedup

/-- `CONSUMPTION_FACTOR > 0` for one row (false on NaN, as in pandas). -/
def consGt0 (r : Row) : Bool :=
  match getVal r "CONSUMPTION_FACTOR" with
  | .num q => decide (0 < q)
  | _ => false

/-- The `groupby(...).sum()` total of column `p` over one group
(`skipna`: non-numeric cells contribute 0). -/
def groupSum (sc : List String) (rows : List Row) (p : String) (k : List Val) : ℚ :=
  ((rows.filter fun r => rowKey sc r == k).map fun r => valNum (getVal r p)).sum

/-- Lines 98-99: the per-group count of rows with positive consumption
(`DAMAGED_STRUCTURES`). -/
def damagedCount (sc : List String) (rows : List Row) (k : List Val) : ℕ :=
  (rows.filter fun r => rowKey sc r == k && consGt0 r).length

/-- Line 113: groups that survive the zero-damaged-structures filter. -/
def retainedKeys (sc : List String) (rows : List Row) : List (List Val) :=
  (groupKeysOf sc rows).filter fun k => 0 < damagedCount sc rows k

/-- A strict comparison on cell values used for the output row sort
(numbers numerically, strings and dates lexicographically; unordered
pairs compare as equal). -/
def valLtB : Val → Val → Bool
  | .num a, .num b => decide (a < b)
  | .str a, .str b => decide (a.data < b.data)
  | .date y1 m1 d1, .date y2 m2 d2 =>
      decide (y1 < y2) || (y1 == y2 && (decide (m1 < m2) || (m1 == m2 && decide (d1 < d2))))
  | _, _ => false

/-- Lexicographic strict comparison of group keys. -/
def keyLtB : List Val → List Val → Bool
  | _, [] => false
  | [], _ :: _ => true
  | a :: as, b :: bs => valLtB a b || (a == b && keyLtB as bs)

/-- The non-strict key order used to model `sort_values` (line 109). -/
def keyLe (a b : List Val) : Prop := keyLtB b a = false

instance : DecidableRel keyLe := fun a b => instDecidableEqBool (keyLtB b a) false

/-- `round(agg_df, 2)` on one cell: numeric cells are rounded to 2
decimals, others are unchanged. -/
def roundValNum2 : Val → Val
  | .num q => .num (round2 q)
  | v => v

/-- One output row of the aggregated report for group key `k`: the
grouping columns, the summed and 2-decimal-rounded emission columns, and
the damaged-structures count. -/
def mkOutRow (sc eCols : List String) (rows : List Row) (k : List Val) : Row :=
  sc.zip (k.map roundValNum2)
    ++ (eCols.map fun c => (c, Val.num (round2 (groupSum sc rows c k))))
    ++ [("DAMAGED_STRUCTURES", Val.num (damagedCount sc rows k))]

/-- Lines 95-114 of `aggregated_report`, after the date-derived columns
exist: group, sum the emission columns, count damaged structures, keep
only groups with a positive count, round to 2 decimals and sort by the
grouping columns. (The emission columns are assumed numeric, as in every
calculator output; `groupby(...).sum(numeric_only=True)` would silently
drop a non-numeric one.) -/
def aggregatedReportCore (sc eCols : List String) (rows : List Row) : DataFrame :=
  ⟨sc ++ eCols ++ ["DAMAGED_STRUCTURES"],
   (List.insertionSort keyLe (retainedKeys sc rows)).map (mkOutRow sc eCols rows)⟩

/-- A call of `aggregated_report`: returns the caller's frame as mutated
by lines 55-57 together with the aggregated report. -/
def aggregatedReportRun (df : DataFrame) (aggs : List String) : DataFrame × DataFrame :=
  let eCols := df.cols.filter fun c => strStartsWith c "E_"
  let df2 := mutateForAggregate df
  (df2, aggregatedReportCore (resolveSorted aggs) eCols df2.rows)

/-- The aggregated report returned by `aggregated_report`. -/
def aggregatedReport (df : DataFrame) (aggs : List String) : DataFrame :=
  (aggregatedReportRun df aggs).2

/-! ## `sweep/vehicles.py` (`vehicle_calculator`) -/

/-- `CONSUMPTION_FACTOR > 0.5` for one row: the "materially destroyed"
test of line 72 (false on NaN). -/
def consGt05 (r : Row) : Bool :=
  match getVal r "CONSUMPTION_FACTOR" with
  | .num q => decide (mkRat 1 2 < q)
  | _ => false

/-- `n_destroyed` (line 72): the count of structure rows whose
consumption fraction exceeds 0.5. -/
def nDestroyed (df : DataFrame) : ℕ := (df.rows.filter consGt05).length

/-- Lines 66-75: the vehicle count. `COUNT` mode takes the value
directly; `RATIO` mode multiplies the destroyed-structure count by the
value; any other mode leaves `n_vehicles` undefined (a `NameError`,
modelled as `none`). -/
def nVehicles (mode : String) (value : ℚ) (df : DataFrame) : Option ℚ :=
  if strUpper mode == "COUNT" then some value
  else if strUpper mode == "RATIO" then some ((nDestroyed df : ℚ) * value)
  else none

/-- One row of the vehicle emission-factor table after column names are
uppercased: `POLLUTANT`, `VEHICLE_GFIRE` and `VEHICLE_GKG` cells
(`Val.na` models a missing cell). -/
structure VefRow where
  pollutant : String
  vehicleGfire : Val
  vehicleGkg : Val
deriving DecidableEq, Repr

/-- The vehicle emission-factor table: which of the two factor columns
exist, plus the rows. -/
structure VefTable where
  hasGfireCol : Bool
  hasGkgCol : Bool
  rows : List VefRow
deriving DecidableEq, Repr

/-- Lines 93-95: when `VEHICLE_GFIRE` is absent but `VEHICLE_GKG` exists,
derive it as `VEHICLE_GKG * 461` (NaN stays NaN). -/
def deriveGfire (t : VefTable) : VefTable :=
  if !t.hasGfireCol && t.hasGkgCol then
    ⟨true, t.hasGkgCol,
     t.rows.map fun r =>
       ⟨r.pollutant,
        (match r.vehicleGkg with | .num g => .num (g * 461) | _ => .na),
        r.vehicleGkg⟩⟩
  else t

/-- One row of the computed vehicle table (lines 91, 107-109):
`POLLUTANT`, `VEHICLE_GFIRE`, `VEHICLES`, `TOTAL_VEHICLE_EMISSIONS_KG`
and `TOTAL_VEHICLE_EMISSIONS_TN`. -/
structure VehicleOut where
  pollutant : String
  vehicleGfire : ℚ
  vehicles : ℚ
  totalKg : ℚ
  totalTn : ℚ
deriving DecidableEq, Repr

/-- `vehicle_calculator`: derive the vehicle count, resolve the factor
table (same `ALL`-sentinel and `isin` semantics as the structure
calculator), derive `VEHICLE_GFIRE` when needed, drop rows with a missing
factor, and compute total kilograms `round(gfire * n / 1000, 2)` and tons
`round(kg / 907.2, 2)`. `none` models the error paths (unknown mode, no
factor column at all, or `isin` on a plain non-sentinel string, which
raises `TypeError`). -/
def vehicleCalculator (df : DataFrame) (mode : String) (value : ℚ)
    (vef : VefTable) (sel : Sel) : Option (List VehicleOut) :=
  (nVehicles mode value df).bind fun n =>
  let t := deriveGfire vef
  if !t.hasGfireCol then none
  else
    (if isAllSentinel sel then some t.rows
     else (isinMembers sel).map fun req =>
       t.rows.filter fun r => req.contains r.pollutant).map
      fun sub => sub.filterMap fun r =>
        match r.vehicleGfire with
        | .num g =>
            some ⟨r.pollutant, g, n, round2 (g * n / 1000),
                  round2 (round2 (g * n / 1000) / (4536/5))⟩
        | _ => none

/-- A call of `vehicle_calculator` paired with its effect on the
structure frame passed in: the function only reads
`structure_df['CONSUMPTION_FACTOR']` (line 72) and never assigns to the
frame, so the frame comes back exactly as it went in. -/
def vehicleCalculatorRun (df : DataFrame) (mode : String) (value : ℚ)
    (vef : VefTable) (sel : Sel) : DataFrame × Option (List VehicleOut) :=
  (df, vehicleCalculator df mode value vef sel)

/-! ## `sweep/estimator_main.py` (`sweep_estimator`)

The pipeline entry point. Data acquisition (`GetBSDB`), filtering
(`sweep/filters.py`) and the downstream stages are passed in as opaque
stage functions: the claims settled here concern only the control flow of
`sweep_estimator` itself (pollutant-selector overrides, aggregate-field
validation, and the empty-filter short-circuit), which is fully present
in the source. -/

/-- `pollutants` default (line 155). -/
def pollutants_default : List String := ["CO", "NOx", "SOx", "PM", "TOG"]

/-- `vpollutants` default (line 161). -/
def vpollutants_default : List String := ["CO", "NOx", "SOx", "PM"]

/-- Lines 154-158: default the structure pollutant selector, then force
it to the `"ALL"` sentinel whenever the emission-factor source is
`OTHER`. -/
def resolvePollutantSel (efChoice : String) (pollutants : Option Sel) : Sel :=
  let p := pollutants.getD (Sel.list pollutants_default)
  if strUpper efChoice == "OTHER" then Sel.str "ALL" else p

/-- Lines 160-164: the same override for the vehicle pollutant list. -/
def resolveVehiclePollutantSel (vefChoice : String) (vpollutants : Option Sel) : Sel :=
  let p := vpollutants.getD (Sel.list vpollutants_default)
  if strUpper vefChoice == "OTHER" then Sel.str "ALL" else p

/-- `VALID_AGG_FIELDS` (lines 169-172). -/
def validAggFieldsList : List String :=
  ["YEAR", "MONTH", "INCIDENT", "COABDIS", "COUNTY",
   "AIR DISTRICT", "AIR DISTRICT ID", "AIR BASIN", "AOI_INDEX"]

/-- The outcome of a `sweep_estimator` call: the `ValueError` of line 176
(carrying the offending field), the `(None, None, None)` early return of
lines 193-195, or the three result tables. -/
inductive SweepOutcome where
  | invalidAggField : String → SweepOutcome
  | noMatchingRecords : SweepOutcome
  | results : DataFrame → DataFrame → DataFrame → SweepOutcome
deriving DecidableEq, Repr

/-- The control flow of `sweep_estimator`: resolve the pollutant
selectors, default the aggregate fields, reject the first aggregate field
whose uppercasing is not in `VALID_AGG_FIELDS` (lines 174-176, before any
data is loaded), load and filter, short-circuit on an empty filter result
(lines 193-195), and otherwise run the emissions, aggregation and vehicle
stages. -/
def sweep_estimator (efChoice : String) (pollutants : Option Sel)
    (vefChoice : String) (vpollutants : Option Sel)
    (aggregateFields : Option (List String)) (bsdb : DataFrame)
    (filterFn : DataFrame → DataFrame)
    (estimateFn : Sel → DataFrame → DataFrame)
    (aggFn : DataFrame → List String → DataFrame)
    (vehFn : Sel → DataFrame → DataFrame) : SweepOutcome :=
  let ps := resolvePollutantSel efChoice pollutants
  let vps := resolveVehiclePollutantSel vefChoice vpollutants
  let fields := aggregateFields.getD ["YEAR", "INCIDENT"]
  match fields.find? (fun f => !(validAggFieldsList.contains (strUpper f))) with
  | some f => .invalidAggField f
  | none =>
    let filt := filterFn bsdb
    if filt.rows.isEmpty then .noMatchingRecords
    else
      let em := estimateFn ps filt
      .results em (aggFn em fields) (vehFn vps em)

/-- Whether a `sweep_estimator` outcome is the aggregate-field
`ValueError`. -/
def SweepOutcome.isInvalidAggField : SweepOutcome → Bool
  | .invalidAggField _ => true
  | _ => false

/-- The structure table of the vehicle-ratio scenario of the spec: 100
records, 40 with consumption fraction 0.9 and 60 with fraction 0.2. -/
def dfRatioExample : DataFrame :=
  ⟨["CONSUMPTION_FACTOR"],
   List.replicate 40 [("CONSUMPTION_FACTOR", Val.num (mkRat 9 10))]
     ++ List.replicate 60 [("CONSUMPTION_FACTOR", Val.num (mkRat 1 5))]⟩

/-- The strict priority order; resolved grouping-column lists with
pairwise-distinct priorities are strictly sorted, hence unique. -/
def priLt (a b : String × ℕ) : Prop := a.2 < b.2

instance : IsAntisymm (String × ℕ) priLt := ⟨fun _ _ h1 h2 => absurd h2 (Nat.lt_asymm h1)⟩

/-- A one-row emissions table (incident `FIRE_A`, consumption fraction 1,
a CO ton value of 0.006) used as concrete input for the aggregation
claims. -/
def dfMutExample : DataFrame :=
  ⟨["INCIDENTNAME", "START_DATE", "CONSUMPTION_FACTOR", "E_CO_TN"],
   [[("INCIDENTNAME", Val.str "FIRE_A"), ("START_DATE", Val.date 2020 8 1),
     ("CONSUMPTION_FACTOR", Val.num 1), ("E_CO_TN", Val.num (mkRat 3 500))]]⟩

/-- A one-row table carrying the two equal-priority dimensions
AIR DISTRICT (column `AIR_DISTRICT`) and AIR DISTRICT ID (column
`DISA_ID`). -/
def dfTieExample : DataFrame :=
  ⟨["START_DATE", "CONSUMPTION_FACTOR", "AIR_DISTRICT", "DISA_ID"],
   [[("START_DATE", Val.date 2020 8 1), ("CONSUMPTION_FACTOR", Val.num 1),
     ("AIR_DISTRICT", Val.str "D1"), ("DISA_ID", Val.str "5")]]⟩

/-! ## Helper lemmas -/

theorem round3_zero : round3 0 = 0 := by
  norm_num [round3, roundTo, roundHalfEven]

theorem out_cols_no_e : ∀ c ∈ out_cols, strStartsWith c "E_" = false := by decide

/-! ## Claim C1 -/

/-- C1: for every structure record and resolved pollutant, the ton value
equals `round((((floor_area*frame + floor_area*contents)/2000) *
consumption * (2*gkg))/2000, 3)`; a floor area of 0 yields 0; and the
intermediate pound-basis columns (names starting `E_` without the `_TN`
suffix) are dropped from the output column set. -/
theorem emissions_per_record_formula :
    (∀ fa ff cf cons gkg : ℚ,
        e_ton fa ff cf cons gkg
          = round3 ((((fa * ff + fa * cf) / 2000) * cons * (2 * gkg)) / 2000))
  ∧ (∀ ff cf cons gkg : ℚ, e_ton 0 ff cf cons gkg = 0)
  ∧ (∀ cols c, c ∈ emissionsOutCols cols → strStartsWith c "E_" = true →
        strEndsWith c "_TN" = true) := by
  refine ⟨?_, ?_, ?_⟩
  · intro fa ff cf cons gkg
    unfold e_ton e_lbs emission_factor round3
    congr 1
    ring
  · intro ff cf cons gkg
    have h : e_lbs 0 ff cf cons (emission_factor gkg) / 2000 = 0 := by
      simp [e_lbs]
    unfold e_ton
    rw [h]
    exact round3_zero
  · intro cols c hc hstart
    unfold emissionsOutCols at hc
    rcases List.mem_append.mp hc with h | h
    · exact absurd hstart (by simp [out_cols_no_e c (List.mem_filter.mp h).1])
    · exact (Bool.and_eq_true _ _ |>.mp (List.mem_filter.mp h).2).2

/-- C1 witness: on a frame with columns `["SQFT", "E_CO"]` the output
contains the ton column `E_CO_TN`, which indeed carries the `_TN`
suffix. -/
theorem emissions_per_record_formula_witness :
    "E_CO_TN" ∈ emissionsOutCols ["SQFT", "E_CO"] ∧
    strEndsWith "E_CO_TN" "_TN" = true :=
  ⟨by decide, emissions_per_record_formula.2.2 ["SQFT", "E_CO"] "E_CO_TN"
      (by decide) (by decide)⟩

/-! ## Claim C2 -/

/-- C2 counterexample: for the unrecognized damage label
`"Inaccessible"` under the `DINS3` preset, the fraction is indeed left
unset, but the assignment loop emits no flag or warning of any kind, so
the claim's conjunct "the condition is flagged" fails. -/
theorem consumption_unrecognized_not_flagged :
    ¬ ((assignConsumptionStep "DINS3" "Inaccessible").1 = none ∧
       (assignConsumptionStep "DINS3" "Inaccessible").2 ≠ []) := by
  intro h
  exact h.2 rfl

/-- C2 (amended): for each of the five recognized damage categories and
each of the four presets, the lookup assigns exactly the preset's
fraction; a record with an unrecognized damage label never receives a
numeric fraction — it is left unset (not zero) — but no flag or warning
is emitted for it. -/
theorem consumption_lookup_spec :
    (assignConsumption "HOLDER" "No Damage" = some 0 ∧
     assignConsumption "HOLDER" "Affected (1-9%)" = some 0 ∧
     assignConsumption "HOLDER" "Minor (10-25%)" = some 0 ∧
     assignConsumption "HOLDER" "Major (26-50%)" = some 0.8 ∧
     assignConsumption "HOLDER" "Destroyed (>50%)" = some 0.8)
  ∧ (assignConsumption "DINS3" "No Damage" = some 0 ∧
     assignConsumption "DINS3" "Affected (1-9%)" = some 0 ∧
     assignConsumption "DINS3" "Minor (10-25%)" = some 0 ∧
     assignConsumption "DINS3" "Major (26-50%)" = some 0.50 ∧
     assignConsumption "DINS3" "Destroyed (>50%)" = some 0.95)
  ∧ (assignConsumption "DINS5" "No Damage" = some 0 ∧
     assignConsumption "DINS5" "Affected (1-9%)" = some 0.05 ∧
     assignConsumption "DINS5" "Minor (10-25%)" = some 0.175 ∧
     assignConsumption "DINS5" "Major (26-50%)" = some 0.38 ∧
     assignConsumption "DINS5" "Destroyed (>50%)" = some 0.755)
  ∧ (assignConsumption "CARB" "No Damage" = some 0 ∧
     assignConsumption "CARB" "Affected (1-9%)" = some 0.07 ∧
     assignConsumption "CARB" "Minor (10-25%)" = some 0.07 ∧
     assignConsumption "CARB" "Major (26-50%)" = some 0.07 ∧
     assignConsumption "CARB" "Destroyed (>50%)" = some 0.07)
  ∧ (∀ preset damage, damageIdx damage = none →
       assignConsumptionStep preset damage = (none, [])) := by
  refine ⟨⟨rfl, rfl, rfl, rfl, rfl⟩, ⟨rfl, rfl, rfl, rfl, rfl⟩,
          ⟨rfl, rfl, rfl, rfl, rfl⟩, ⟨rfl, rfl, rfl, rfl, rfl⟩, ?_⟩
  intro preset damage h
  unfold assignConsumptionStep assignConsumption
  rw [h]
  rfl

/-- C2 witness: the label `"Inaccessible"` is outside the recognized
enumeration, and the assignment step leaves the fraction unset with no
warning. -/
theorem consumption_lookup_spec_witness :
    damageIdx "Inaccessible" = none ∧
    assignConsumptionStep "DINS3" "Inaccessible" = (none, []) :=
  ⟨rfl, consumption_lookup_spec.2.2.2.2 "DINS3" "Inaccessible" rfl⟩

/-! ## Claim C8 -/

/-- C8 counterexample: with factor table `[("CO", 10 g/kg)]`, requesting
the lowercase list `["co"]` selects nothing, while the exact-case request
`["CO"]` does select the entry — pollutant matching is case-sensitive;
and the sentinel spelled `"aLl"` is not recognized: the string falls
through to `isin`, which rejects a non-list-like argument with a
`TypeError` instead of selecting all pollutants. -/
theorem pollutant_match_case_sensitive_cex :
    resolveEF [⟨"CO", some 10⟩] (Sel.list ["co"]) = some [] ∧
    resolveEF [⟨"CO", some 10⟩] (Sel.str "aLl") = none ∧
    resolveEF [⟨"CO", some 10⟩] (Sel.list ["CO"]) = some [("CO", 20)] := by
  refine ⟨rfl, rfl, ?_⟩
  norm_num [resolveEF, isAllSentinel, isinMembers, emission_factor,
    List.filterMap_cons]

/-- C8 (amended): the ALL sentinel is recognized exactly in the three
spellings `"ALL"`, `"All"`, `"all"` and then selects every pollutant with
a non-missing structure factor (doubled into the emission factor); any
other plain string reaches `isin`, which raises `TypeError` on
non-list-like arguments; explicit pollutant lists are matched
case-sensitively (exact string equality), matching entries are kept, and
pollutants absent from the table are silently excluded rather than
raising an error. -/
theorem pollutant_resolution_spec :
    (∀ (table : List EfRow) (s : String), isAllSentinel (Sel.str s) = true →
        resolveEF table (Sel.str s)
          = some (table.filterMap fun r =>
              r.structure_gkg.map fun g => (r.pollutant, emission_factor g)))
  ∧ (isAllSentinel (Sel.str "ALL") = true ∧ isAllSentinel (Sel.str "All") = true ∧
     isAllSentinel (Sel.str "all") = true ∧ isAllSentinel (Sel.str "aLL") = false)
  ∧ (∀ (table : List EfRow) (s : String), isAllSentinel (Sel.str s) = false →
        resolveEF table (Sel.str s) = none)
  ∧ (∀ (table : List EfRow) (req : List String) (out : List (String × ℚ)),
        resolveEF table (Sel.list req) = some out →
        (∀ (pr : String) (f : ℚ), (pr, f) ∈ out → pr ∈ req)
          ∧ (∀ (r : EfRow) (g : ℚ), r ∈ table → r.pollutant ∈ req →
              r.structure_gkg = some g →
              (r.pollutant, emission_factor g) ∈ out)) := by
  refine ⟨?_, ⟨rfl, rfl, rfl, rfl⟩, ?_, ?_⟩
  · intro table s h
    simp [resolveEF, h]
  · intro table s h
    simp [resolveEF, h, isinMembers]
  · intro table req out hout
    have hev : resolveEF table (Sel.list req)
        = some ((table.filter fun r => req.contains r.pollutant).filterMap
            fun r => r.structure_gkg.map fun g => (r.pollutant, emission_factor g)) := rfl
    rw [hev] at hout
    cases Option.some.inj hout
    constructor
    · intro pr f h
      simp only [List.mem_filterMap, List.mem_filter] at h
      obtain ⟨r, ⟨_, hreq⟩, hmap⟩ := h
      obtain ⟨g, _, hg⟩ := Option.map_eq_some'.mp hmap
      cases hg
      simpa using hreq
    · intro r g hr hreq hg
      simp only [List.mem_filterMap, List.mem_filter]
      exact ⟨r, ⟨hr, by simpa using hreq⟩, by rw [hg]; rfl⟩

/-- C8 witness: a concrete run of the ALL branch on a two-row table with
one missing factor. -/
theorem pollutant_resolution_spec_witness :
    resolveEF [⟨"CO", some 10⟩, ⟨"PO", none⟩] (Sel.str "all")
      = some [("CO", emission_factor 10)] :=
  pollutant_resolution_spec.1 [⟨"CO", some 10⟩, ⟨"PO", none⟩] "all" rfl

/-! ## Claim C5 -/

/-- C5: in RATIO mode the vehicle count equals the ratio value times the
count of records whose consumption fraction strictly exceeds 0.5 (not
the aggregator's `> 0` threshold); every output row's total kilograms is
`round(gfire * vehicle_count / 1000, 2)`; and on the table with 40 rows
at fraction 0.9 and 60 rows at 0.2 with ratio 1.44, the destroyed count
is 40 and the vehicle count is 57.6. -/
theorem vehicle_ratio_mode_spec :
    (∀ (df : DataFrame) (value : ℚ),
        nVehicles "RATIO" value df = some ((nDestroyed df : ℚ) * value))
  ∧ (∀ (df : DataFrame) (mode : String) (value n : ℚ) (vef : VefTable)
        (sel : Sel) (out : List VehicleOut),
        nVehicles mode value df = some n →
        vehicleCalculator df mode value vef sel = some out →
        ∀ vr ∈ out, vr.totalKg = round2 (vr.vehicleGfire * n / 1000))
  ∧ nDestroyed dfRatioExample = 40
  ∧ nVehicles "RATIO" 1.44 dfRatioExample = some 57.6 := by
  have h40 : nDestroyed dfRatioExample = 40 := by decide
  refine ⟨fun df value => rfl, ?_, h40, ?_⟩
  · intro df mode value n vef sel out hn hout vr hvr
    unfold vehicleCalculator at hout
    rw [hn] at hout
    simp only [Option.some_bind] at hout
    split at hout
    · exact absurd hout (by simp)
    · obtain ⟨sub, _, rfl⟩ := Option.map_eq_some'.mp hout
      obtain ⟨r, _, hmatch⟩ := List.mem_filterMap.mp hvr
      cases hgf : r.vehicleGfire <;> rw [hgf] at hmatch
      case num g =>
        obtain rfl : _ = vr := Option.some.inj hmatch
        rfl
      all_goals exact absurd hmatch (by simp)
  · have h1 : nVehicles "RATIO" 1.44 dfRatioExample
        = some ((nDestroyed dfRatioExample : ℚ) * 1.44) := rfl
    rw [h1, h40]
    norm_num

/-- C5 witness: a one-pollutant run in RATIO mode on an empty structure
table; the kilogram value of the single output row follows the
`round(gfire * count / 1000, 2)` law. -/
theorem vehicle_ratio_mode_spec_witness :
    nVehicles "RATIO" 2 (⟨[], []⟩ : DataFrame)
      = some ((nDestroyed (⟨[], []⟩ : DataFrame) : ℚ) * 2) ∧
    (∀ vr ∈ (vehicleCalculator ⟨[], []⟩ "RATIO" 2 ⟨true, false, [⟨"CO", Val.num 10, Val.na⟩]⟩
        (Sel.str "ALL")).getD [],
      vr.totalKg = round2 (vr.vehicleGfire * ((nDestroyed (⟨[], []⟩ : DataFrame) : ℚ) * 2) / 1000)) :=
  ⟨rfl,
   vehicle_ratio_mode_spec.2.1 ⟨[], []⟩ "RATIO" 2 _
     ⟨true, false, [⟨"CO", Val.num 10, Val.na⟩]⟩ (Sel.str "ALL") _ rfl rfl⟩

/-! ## Claim C6 -/

/-- C6: an aggregation request containing a dimension name outside the
fixed enumeration makes `sweep_estimator` fail with the `ValueError` of
line 176 regardless of the data source and of the filter/emissions/
aggregation/vehicle stage implementations — validation happens before
any of them runs, so the unknown dimension is never silently dropped. -/
theorem invalid_agg_field_fatal (efChoice : String) (pollutants : Option Sel)
    (vefChoice : String) (vpollutants : Option Sel)
    (fields : List String) (f : String)
    (hf : f ∈ fields) (hbad : validAggFieldsList.contains (strUpper f) = false) :
    ∀ bsdb filterFn estimateFn aggFn vehFn,
      (sweep_estimator efChoice pollutants vefChoice vpollutants (some fields) bsdb
          filterFn estimateFn aggFn vehFn).isInvalidAggField = true := by
  intro bsdb filterFn estimateFn aggFn vehFn
  have hsome : (fields.find? fun g => !(validAggFieldsList.contains (strUpper g))).isSome :=
    List.find?_isSome.mpr ⟨f, hf, by
      show (!(validAggFieldsList.contains (strUpper f))) = true
      rw [hbad]
      rfl⟩
  obtain ⟨g, hg⟩ := Option.isSome_iff_exists.mp hsome
  simp only [sweep_estimator, Option.getD_some]
  rw [hg]
  rfl

/-- C6 witness: the request `["YEAR", "REGION"]` contains the unknown
dimension `"REGION"` and the pipeline reports the fatal error. -/
theorem invalid_agg_field_fatal_witness :
    "REGION" ∈ ["YEAR", "REGION"] ∧
    validAggFieldsList.contains (strUpper "REGION") = false ∧
    (sweep_estimator "HOLDER" none "CARB" none (some ["YEAR", "REGION"]) ⟨[], []⟩
        id (fun _ df => df) (fun df _ => df) (fun _ df => df)).isInvalidAggField = true :=
  ⟨by decide, by decide,
   invalid_agg_field_fatal "HOLDER" none "CARB" none ["YEAR", "REGION"] "REGION"
     (by decide) (by decide) ⟨[], []⟩ id (fun _ df => df) (fun df _ => df) (fun _ df => df)⟩

/-! ## Claim C7 -/

/-- C7: when the filter stage returns zero rows (and the aggregate
fields validate), `sweep_estimator` returns the explicit
no-matching-records outcome for every possible emissions, aggregation
and vehicle stage — the remainder of the pipeline is not executed and
no error is raised. -/
theorem empty_filter_short_circuit (efChoice : String) (pollutants : Option Sel)
    (vefChoice : String) (vpollutants : Option Sel)
    (aggregateFields : Option (List String)) (bsdb : DataFrame)
    (filterFn : DataFrame → DataFrame)
    (hv : ∀ f ∈ aggregateFields.getD ["YEAR", "INCIDENT"],
        validAggFieldsList.contains (strUpper f) = true)
    (he : (filterFn bsdb).rows = []) :
    ∀ estimateFn aggFn vehFn,
      sweep_estimator efChoice pollutants vefChoice vpollutants aggregateFields bsdb
        filterFn estimateFn aggFn vehFn = .noMatchingRecords := by
  intro estimateFn aggFn vehFn
  have hfind : (aggregateFields.getD ["YEAR", "INCIDENT"]).find?
      (fun g => !(validAggFieldsList.contains (strUpper g))) = none := by
    rw [List.find?_eq_none]
    intro x hx
    have hmem : strUpper x ∈ validAggFieldsList := by simpa using hv x hx
    simp [hmem]
  simp only [sweep_estimator]
  rw [hfind, he]
  rfl

/-- C7 witness: an identity filter over an empty table short-circuits
the pipeline. -/
theorem empty_filter_short_circuit_witness :
    ((fun df : DataFrame => df) ⟨[], []⟩).rows = [] ∧
    sweep_estimator "HOLDER" none "CARB" none none ⟨[], []⟩ (fun df => df)
      (fun _ df => df) (fun df _ => df) (fun _ df => df) = .noMatchingRecords :=
  ⟨rfl, empty_filter_short_circuit "HOLDER" none "CARB" none none ⟨[], []⟩ (fun df => df)
     (by decide) rfl (fun _ df => df) (fun df _ => df) (fun _ df => df)⟩

/-! ## Claim C10 -/

/-- C10: whenever the (structure or vehicle) emission-factor source
uppercases to `OTHER`, the corresponding pollutant selector is forced to
the `"ALL"` sentinel, discarding any caller-supplied list. -/
theorem other_ef_forces_all_pollutants :
    (∀ (efChoice : String) (p : Option Sel), strUpper efChoice = "OTHER" →
        resolvePollutantSel efChoice p = Sel.str "ALL")
  ∧ (∀ (vefChoice : String) (vp : Option Sel), strUpper vefChoice = "OTHER" →
        resolveVehiclePollutantSel vefChoice vp = Sel.str "ALL") := by
  constructor
  · intro c p h
    simp [resolvePollutantSel, h]
  · intro c p h
    simp [resolveVehiclePollutantSel, h]

/-- C10 witness: explicit pollutant lists are overridden when the factor
source is `OTHER` in any casing. -/
theorem other_ef_forces_all_pollutants_witness :
    strUpper "Other" = "OTHER" ∧
    resolvePollutantSel "Other" (some (Sel.list ["CO", "NOx"])) = Sel.str "ALL" ∧
    resolveVehiclePollutantSel "other" (some (Sel.list ["PM"])) = Sel.str "ALL" :=
  ⟨rfl, other_ef_forces_all_pollutants.1 "Other" (some (Sel.list ["CO", "NOx"])) rfl,
   other_ef_forces_all_pollutants.2 "other" (some (Sel.list ["PM"])) rfl⟩

theorem getVal_map_update_other (r : Row) (n : String) (v : Val) (c : String) (h : c ≠ n) :
    getVal (r.map fun q => if q.1 == n then (n, v) else q) c = getVal r c := by
  have hnc : ¬((n == c) = true) := by simp [beq_eq_false_iff_ne.mpr fun e => h e.symm]
  induction r with
  | nil => rfl
  | cons q t ih =>
    simp only [List.map_cons, getVal]
    by_cases hqn : (q.1 == n) = true
    · have hqc : ¬((q.1 == c) = true) := by rw [eq_of_beq hqn]; exact hnc
      rw [if_pos hqn]
      simp only [getVal]
      rw [if_neg hnc, if_neg hqc]
      exact ih
    · rw [if_neg hqn]
      by_cases hqc : (q.1 == c) = true
      · rw [if_pos hqc, if_pos hqc]
      · rw [if_neg hqc, if_neg hqc]
        exact ih

theorem getVal_append_single_other (r : Row) (n : String) (v : Val) (c : String) (h : c ≠ n) :
    getVal (r ++ [(n, v)]) c = getVal r c := by
  have hnc : ¬((n == c) = true) := by simp [beq_eq_false_iff_ne.mpr fun e => h e.symm]
  induction r with
  | nil =>
    simp only [List.nil_append, getVal]
    rw [if_neg hnc]
  | cons q t ih =>
    simp only [List.cons_append, getVal]
    by_cases hqc : (q.1 == c) = true
    · rw [if_pos hqc, if_pos hqc]
    · rw [if_neg hqc, if_neg hqc]
      exact ih

theorem getVal_setRowVal_other (r : Row) (n : String) (v : Val) (c : String) (h : c ≠ n) :
    getVal (setRowVal r n v) c = getVal r c := by
  unfold setRowVal
  split
  · exact getVal_map_update_other r n v c h
  · exact getVal_append_single_other r n v c h

theorem getVal_map_update_same (r : Row) (n : String) (v : Val)
    (hany : r.any (fun q => q.1 == n) = true) :
    getVal (r.map fun q => if q.1 == n then (n, v) else q) n = v := by
  induction r with
  | nil => cases hany
  | cons q t ih =>
    simp only [List.map_cons, getVal]
    by_cases hqn : (q.1 == n) = true
    · rw [if_pos hqn]
      simp only [getVal]
      rw [if_pos (by simp)]
    · rw [List.any_cons] at hany
      have ht : t.any (fun q => q.1 == n) = true := by
        rcases Bool.or_eq_true_iff.mp hany with h1 | h1
        · exact absurd h1 hqn
        · exact h1
      rw [if_neg hqn, if_neg hqn]
      exact ih ht

theorem getVal_append_single_same (r : Row) (n : String) (v : Val)
    (hnone : r.any (fun q => q.1 == n) = false) :
    getVal (r ++ [(n, v)]) n = v := by
  induction r with
  | nil =>
    simp only [List.nil_append, getVal]
    rw [if_pos (by simp)]
  | cons q t ih =>
    rw [List.any_cons, Bool.or_eq_false_iff] at hnone
    simp only [List.cons_append, getVal]
    rw [if_neg (by simp [hnone.1])]
    exact ih hnone.2

theorem getVal_setRowVal_same (r : Row) (n : String) (v : Val) :
    getVal (setRowVal r n v) n = v := by
  unfold setRowVal
  split
  case isTrue h => exact getVal_map_update_same r n v h
  case isFalse h => exact getVal_append_single_same r n v (Bool.eq_false_iff.mpr h)

/-! ## Claim C9 -/

/-- C9 counterexample: `aggregated_report` mutates the emissions frame
passed to it — on a frame without `MONTH`/`YEAR` columns, the frame's
column list after the call differs from the one before (the derived
columns were added in place). -/
theorem aggregator_mutates_input_cex :
    ((aggregatedReportRun dfMutExample ["INCIDENT"]).1).cols ≠ dfMutExample.cols := by
  decide

/-- C9 (amended): the VehicleEstimator is a pure consumer — the
structure frame comes back from `vehicle_calculator` exactly as it went
in. The Aggregator, however, is not: `aggregated_report` adds the
derived `MONTH` and `YEAR` columns and rewrites `START_DATE` in place on
the frame passed in; every other column keeps its value on every row,
and the rewritten `START_DATE` keeps its (already-datetime) value. -/
theorem consumer_frame_effects :
    (∀ (df : DataFrame) (mode : String) (value : ℚ) (vef : VefTable) (sel : Sel),
        (vehicleCalculatorRun df mode value vef sel).1 = df)
  ∧ (∀ (df : DataFrame) (aggs : List String),
        ((aggregatedReportRun df aggs).1).cols
            = addColName (addColName (addColName df.cols "START_DATE") "MONTH") "YEAR"
          ∧ ((aggregatedReportRun df aggs).1).rows = df.rows.map mutateRow)
  ∧ (∀ (r : Row) (c : String), c ≠ "START_DATE" → c ≠ "MONTH" → c ≠ "YEAR" →
        getVal (mutateRow r) c = getVal r c)
  ∧ (∀ r : Row, getVal (mutateRow r) "START_DATE" = getVal r "START_DATE") := by
  refine ⟨fun df mode value vef sel => rfl, fun df aggs => ⟨rfl, rfl⟩, ?_, ?_⟩
  · intro r c h1 h2 h3
    unfold mutateRow
    rw [getVal_setRowVal_other _ _ _ _ h3, getVal_setRowVal_other _ _ _ _ h2,
      getVal_setRowVal_other _ _ _ _ h1]
  · intro r
    unfold mutateRow
    rw [getVal_setRowVal_other _ _ _ _ (by decide), getVal_setRowVal_other _ _ _ _ (by decide),
      getVal_setRowVal_same]

/-- C9 witness: an emission ton column is untouched by the aggregator's
in-place date-column writes. -/
theorem consumer_frame_effects_witness :
    getVal (mutateRow [("E_CO_TN", Val.num 1)]) "E_CO_TN"
      = getVal [("E_CO_TN", Val.num 1)] "E_CO_TN" :=
  consumer_frame_effects.2.2.1 [("E_CO_TN", Val.num 1)] "E_CO_TN"
    (by decide) (by decide) (by decide)

theorem insertionSort_priLe_eq_of_perm (l1 l2 : List (String × ℕ))
    (hperm : l1.Perm l2) (hnd : (l1.map fun x => x.2).Nodup) :
    List.insertionSort priLe l1 = List.insertionSort priLe l2 := by
  have p1 := List.perm_insertionSort priLe l1
  have p2 := List.perm_insertionSort priLe l2
  have p12 : (List.insertionSort priLe l1).Perm (List.insertionSort priLe l2) :=
    p1.trans (hperm.trans p2.symm)
  have hnd1 : ((List.insertionSort priLe l1).map fun x => x.2).Nodup :=
    ((p1.map fun x => x.2).nodup_iff).mpr hnd
  have hnd2 : ((List.insertionSort priLe l2).map fun x => x.2).Nodup :=
    ((p12.map fun x => x.2).nodup_iff).mp hnd1
  have st1 : (List.insertionSort priLe l1).Sorted priLt :=
    ((List.sorted_insertionSort priLe l1).and (List.pairwise_map.mp hnd1)).imp
      fun h => Nat.lt_of_le_of_ne h.1 h.2
  have st2 : (List.insertionSort priLe l2).Sorted priLt :=
    ((List.sorted_insertionSort priLe l2).and (List.pairwise_map.mp hnd2)).imp
      fun h => Nat.lt_of_le_of_ne h.1 h.2
  exact List.eq_of_perm_of_sorted p12 st1 st2

/-! ## Claim C4 -/

/-- C4 counterexample: the two equal-priority dimensions AIR DISTRICT
and AIR DISTRICT ID (both priority 3) keep their request order through
the stable sort, so swapping them in the request changes the output's
column ordering — the aggregated tables are not identical. -/
theorem aggregate_order_tie_cex :
    (aggregatedReport dfTieExample ["AIR DISTRICT", "AIR DISTRICT ID"]).cols
      ≠ (aggregatedReport dfTieExample ["AIR DISTRICT ID", "AIR DISTRICT"]).cols := by
  decide

/-- C4 (amended): two aggregation requests that resolve to the same
multiset of (column, priority) pairs produce identical aggregated
reports on every input table provided the resolved priorities are
pairwise distinct; in particular `[INCIDENT, AIR BASIN]` and
`[AIR BASIN, INCIDENT]` (priorities 8 and 2) always produce identical
tables, with the coarser dimension's column first. Dimensions of equal
priority retain the caller's request order (Python's `sorted` is
stable), so for those the output does depend on request order. -/
theorem aggregate_order_invariance :
    (∀ aggs1 aggs2 : List String, (resolvedPairs aggs1).Perm (resolvedPairs aggs2) →
        ((resolvedPairs aggs1).map fun x => x.2).Nodup →
        ∀ df : DataFrame, aggregatedReport df aggs1 = aggregatedReport df aggs2)
  ∧ (∀ df : DataFrame,
        aggregatedReport df ["INCIDENT", "AIR BASIN"]
          = aggregatedReport df ["AIR BASIN", "INCIDENT"]) := by
  have main : ∀ aggs1 aggs2 : List String, (resolvedPairs aggs1).Perm (resolvedPairs aggs2) →
      ((resolvedPairs aggs1).map fun x => x.2).Nodup →
      ∀ df : DataFrame, aggregatedReport df aggs1 = aggregatedReport df aggs2 := by
    intro a1 a2 hperm hnd df
    have hres : resolveSorted a1 = resolveSorted a2 := by
      unfold resolveSorted
      rw [insertionSort_priLe_eq_of_perm _ _ hperm hnd]
    unfold aggregatedReport aggregatedReportRun
    rw [hres]
  exact ⟨main, fun df => main _ _ (by decide) (by decide) df⟩

/-- C4 witness: the `[INCIDENT, AIR BASIN]` pair on a concrete table. -/
theorem aggregate_order_invariance_witness :
    aggregatedReport dfTieExample ["INCIDENT", "AIR BASIN"]
      = aggregatedReport dfTieExample ["AIR BASIN", "INCIDENT"] :=
  aggregate_order_invariance.1 ["INCIDENT", "AIR BASIN"] ["AIR BASIN", "INCIDENT"]
    (by decide) (by decide) dfTieExample

theorem getVal_append_no_key (l1 l2 : Row) (c : String)
    (h : ∀ q ∈ l1, ¬((q.1 == c) = true)) :
    getVal (l1 ++ l2) c = getVal l2 c := by
  induction l1 with
  | nil => rfl
  | cons q t ih =>
    simp only [List.cons_append, getVal]
    rw [if_neg (h q (List.mem_cons_self q t))]
    exact ih fun x hx => h x (List.mem_cons_of_mem q hx)

theorem getVal_map_pair_mem (eCols : List String) (g : String → Val) (rest : Row) (c : String)
    (hc : c ∈ eCols) :
    getVal ((eCols.map fun x => (x, g x)) ++ rest) c = g c := by
  induction eCols with
  | nil => cases hc
  | cons a t ih =>
    simp only [List.map_cons, List.cons_append, getVal]
    by_cases hac : (a == c) = true
    · rw [if_pos hac, eq_of_beq hac]
    · rcases List.mem_cons.mp hc with h1 | h1
      · exact absurd (beq_iff_eq.mpr h1.symm) hac
      · rw [if_neg hac]
        exact ih h1

theorem getVal_mkOutRow (sc eCols : List String) (rows : List Row) (k : List Val)
    (c : String) (hcs : c ∉ sc) (hce : c ∈ eCols) :
    getVal (mkOutRow sc eCols rows k) c = Val.num (round2 (groupSum sc rows c k)) := by
  unfold mkOutRow
  rw [List.append_assoc, getVal_append_no_key]
  · exact getVal_map_pair_mem eCols _ _ c hce
  · intro q hq
    obtain ⟨a, b⟩ := q
    have ha : a ∈ sc := (List.of_mem_zip hq).1
    intro hbeq
    exact hcs (eq_of_beq hbeq ▸ ha)

theorem sum_filter_or_disjoint {α : Type} (l : List α) (f : α → ℚ) (p q : α → Bool)
    (h : ∀ x ∈ l, ¬(p x = true ∧ q x = true)) :
    ((l.filter p).map f).sum + ((l.filter q).map f).sum
      = ((l.filter fun x => p x || q x).map f).sum := by
  induction l with
  | nil => simp
  | cons a t ih =>
    have ht : ∀ x ∈ t, ¬(p x = true ∧ q x = true) :=
      fun x hx => h x (List.mem_cons_of_mem a hx)
    have iht := ih ht
    cases hp : p a <;> cases hq : q a
    · simp only [List.filter_cons, hp, hq]
      simp only [Bool.or_self, Bool.false_eq_true, if_false]
      exact iht
    · simp only [List.filter_cons, hp, hq]
      simp only [Bool.false_or, Bool.false_eq_true, if_false, if_true, List.map_cons,
        List.sum_cons]
      rw [add_left_comm, iht]
    · simp only [List.filter_cons, hp, hq]
      simp only [Bool.or_false, Bool.false_eq_true, if_false, if_true, List.map_cons,
        List.sum_cons]
      rw [add_assoc, iht]
    · exact absurd ⟨hp, hq⟩ (h a (List.mem_cons_self a t))

theorem sum_groups (sc : List String) (rows : List Row) (p : String) :
    ∀ ks : List (List Val), ks.Nodup →
      (ks.map fun k => groupSum sc rows p k).sum
        = ((rows.filter fun r => ks.contains (rowKey sc r)).map
            fun r => valNum (getVal r p)).sum := by
  intro ks
  induction ks with
  | nil =>
    intro _
    simp
  | cons k ks ih =>
    intro hnd
    have hk : k ∉ ks := (List.nodup_cons.mp hnd).1
    have hnd2 := (List.nodup_cons.mp hnd).2
    simp only [List.map_cons, List.sum_cons, ih hnd2]
    have hdisj : ∀ r ∈ rows,
        ¬((rowKey sc r == k) = true ∧ ks.contains (rowKey sc r) = true) := by
      intro r _ hand
      have h1 : rowKey sc r = k := eq_of_beq hand.1
      rw [h1] at hand
      exact hk (by simpa using hand.2)
    have hsplit := sum_filter_or_disjoint rows (fun r => valNum (getVal r p))
      (fun r => rowKey sc r == k) (fun r => ks.contains (rowKey sc r)) hdisj
    unfold groupSum
    rw [hsplit]
    have hfc : (rows.filter fun r => (rowKey sc r == k) || ks.contains (rowKey sc r))
        = rows.filter fun r => (k :: ks).contains (rowKey sc r) := by
      apply List.filter_congr
      intro r _
      rw [List.contains_cons]
    rw [hfc]

/-! ## Claim C3 -/

/-- C3 (amended): for every emissions table and grouping, provided rows
with non-positive consumption carry a zero ton value (true of all
calculator outputs), the sum of the pollutant's unrounded group totals
across retained groups equals the sum of the pollutant over all rows
with consumption fraction > 0 whose group survives the
zero-damaged-structures filter; the values reported in the aggregated
table are these group totals rounded to 2 decimals, so the reported
grand total can differ from the row-level sum by the accumulated
rounding. -/
theorem aggregate_sum_invariant (sc eCols : List String) (rows : List Row) (p : String)
    (hpe : p ∈ eCols) (hps : p ∉ sc)
    (hz : ∀ r ∈ rows, consGt0 r = false → valNum (getVal r p) = 0) :
    ((aggregatedReportCore sc eCols rows).rows.map fun r => valNum (getVal r p)).sum
        = ((retainedKeys sc rows).map fun k => round2 (groupSum sc rows p k)).sum
  ∧ ((retainedKeys sc rows).map fun k => groupSum sc rows p k).sum
        = ((rows.filter fun r =>
              consGt0 r && (retainedKeys sc rows).contains (rowKey sc r)).map
            fun r => valNum (getVal r p)).sum := by
  constructor
  · show (((List.insertionSort keyLe (retainedKeys sc rows)).map (mkOutRow sc eCols rows)).map
        fun r => valNum (getVal r p)).sum = _
    rw [List.map_map]
    have h1 : (List.insertionSort keyLe (retainedKeys sc rows)).map
          ((fun r => valNum (getVal r p)) ∘ mkOutRow sc eCols rows)
        = (List.insertionSort keyLe (retainedKeys sc rows)).map
            fun k => round2 (groupSum sc rows p k) := by
      apply List.map_congr_left
      intro k _
      show valNum (getVal (mkOutRow sc eCols rows k) p) = _
      rw [getVal_mkOutRow sc eCols rows k p hps hpe]
      rfl
    rw [h1]
    exact ((List.perm_insertionSort keyLe (retainedKeys sc rows)).map
      fun k => round2 (groupSum sc rows p k)).sum_eq
  · have hnd : (retainedKeys sc rows).Nodup := (List.nodup_dedup _).filter _
    rw [sum_groups sc rows p (retainedKeys sc rows) hnd]
    have hdisj : ∀ r ∈ rows,
        ¬((consGt0 r && (retainedKeys sc rows).contains (rowKey sc r)) = true ∧
          ((!consGt0 r) && (retainedKeys sc rows).contains (rowKey sc r)) = true) := by
      intro r _ hand
      have h1 := ((Bool.and_eq_true _ _).mp hand.1).1
      have h2 := ((Bool.and_eq_true _ _).mp hand.2).1
      rw [h1] at h2
      simp at h2
    have hsplit := sum_filter_or_disjoint rows (fun r => valNum (getVal r p))
      (fun r => consGt0 r && (retainedKeys sc rows).contains (rowKey sc r))
      (fun r => (!consGt0 r) && (retainedKeys sc rows).contains (rowKey sc r)) hdisj
    have hq0 : ((rows.filter fun r =>
          (!consGt0 r) && (retainedKeys sc rows).contains (rowKey sc r)).map
          fun r => valNum (getVal r p)).sum = 0 := by
      apply List.sum_eq_zero
      intro y hy
      obtain ⟨r, hr, rfl⟩ := List.mem_map.mp hy
      have hrf := List.mem_filter.mp hr
      have hcons : consGt0 r = false := by
        have h1 := ((Bool.and_eq_true _ _).mp hrf.2).1
        cases hc : consGt0 r
        · rfl
        · rw [hc] at h1
          simp at h1
      exact hz r hrf.1 hcons
    have hor : (rows.filter fun r =>
          (consGt0 r && (retainedKeys sc rows).contains (rowKey sc r)) ||
          ((!consGt0 r) && (retainedKeys sc rows).contains (rowKey sc r)))
        = rows.filter fun r => (retainedKeys sc rows).contains (rowKey sc r) := by
      apply List.filter_congr
      intro r _
      cases hc : consGt0 r <;> simp
    rw [← hor, ← hsplit, hq0, add_zero]

/-- C3 counterexample: on a one-row table with a CO ton value of 0.006
and consumption fraction 1, grouped by INCIDENT, the aggregated report
carries the 2-decimal-rounded total 0.01 while the sum of the ton values
over the rows with positive consumption in surviving groups is 0.006 —
the claimed exact equality between the two fails. -/
theorem aggregate_sum_rounding_cex :
    ¬ (((aggregatedReport dfMutExample ["INCIDENT"]).rows.map
          fun r => valNum (getVal r "E_CO_TN")).sum
        = ((dfMutExample.rows.filter fun r =>
              consGt0 r &&
                (retainedKeys (resolveSorted ["INCIDENT"])
                    (mutateForAggregate dfMutExample).rows).contains
                  (rowKey (resolveSorted ["INCIDENT"]) r)).map
            fun r => valNum (getVal r "E_CO_TN")).sum) := by
  intro h
  have hrows : (aggregatedReport dfMutExample ["INCIDENT"]).rows
      = [mkOutRow ["INCIDENTNAME"] ["E_CO_TN"]
          (mutateForAggregate dfMutExample).rows [Val.str "FIRE_A"]] := rfl
  rw [hrows, List.map_cons, List.map_nil, List.sum_cons, List.sum_nil] at h
  rw [getVal_mkOutRow ["INCIDENTNAME"] ["E_CO_TN"] (mutateForAggregate dfMutExample).rows
    [Val.str "FIRE_A"] "E_CO_TN" (by decide) (by decide)] at h
  have hgs : groupSum ["INCIDENTNAME"] (mutateForAggregate dfMutExample).rows "E_CO_TN"
      [Val.str "FIRE_A"] = mkRat 3 500 + 0 := rfl
  have hrhs : (dfMutExample.rows.filter fun r =>
        consGt0 r &&
          (retainedKeys (resolveSorted ["INCIDENT"])
              (mutateForAggregate dfMutExample).rows).contains
            (rowKey (resolveSorted ["INCIDENT"]) r)).map
        (fun r => valNum (getVal r "E_CO_TN")) = [mkRat 3 500] := rfl
  rw [hgs, hrhs, List.sum_cons, List.sum_nil] at h
  simp only [valNum, add_zero] at h
  rw [Rat.mkRat_eq_div] at h
  have hr2 : round2 ((3:ℤ) / (500:ℕ) : ℚ) = 1/100 := by
    norm_num [round2, roundTo, roundHalfEven]
  rw [hr2] at h
  norm_num at h

/-- C3 witness: the amended invariant instantiated on the concrete
one-row table grouped by `INCIDENTNAME`. -/
theorem aggregate_sum_invariant_witness :
    (((aggregatedReportCore ["INCIDENTNAME"] ["E_CO_TN"]
          (mutateForAggregate dfMutExample).rows).rows.map
        fun r => valNum (getVal r "E_CO_TN")).sum
      = ((retainedKeys ["INCIDENTNAME"] (mutateForAggregate dfMutExample).rows).map
          fun k => round2 (groupSum ["INCIDENTNAME"]
            (mutateForAggregate dfMutExample).rows "E_CO_TN" k)).sum)
  ∧ (((retainedKeys ["INCIDENTNAME"] (mutateForAggregate dfMutExample).rows).map
        fun k => groupSum ["INCIDENTNAME"]
          (mutateForAggregate dfMutExample).rows "E_CO_TN" k).sum
      = (((mutateForAggregate dfMutExample).rows.filter fun r =>
            consGt0 r && (retainedKeys ["INCIDENTNAME"]
                (mutateForAggregate dfMutExample).rows).contains
              (rowKey ["INCIDENTNAME"] r)).map
          fun r => valNum (getVal r "E_CO_TN")).sum) :=
  aggregate_sum_invariant ["INCIDENTNAME"] ["E_CO_TN"]
    (mutateForAggregate dfMutExample).rows "E_CO_TN"
    (by decide) (by decide) (by decide)
